import Mathlib

/-!
Shallow embedding of `src/clustering/packages/graspologic/cluster/kclust.py`
(class `KMeansCluster`): construction-time validation of `max_clusters`, and
`fit`, which sweeps candidate cluster counts `range(2, max_clusters + 1)`,
fits one model per count through a fitting primitive, scores each with a
silhouette score and (when `y` is given) an adjusted Rand score, and selects
via `np.argmax`.

The clustering and scoring primitives (`KMeans.fit_predict`,
`silhouette_score`, `adjusted_rand_score` from sklearn) are external
collaborators of the excerpt; they are modelled as oracle functions supplied
in an `Oracles` record, each returning `Except` so that a raised exception of
a collaborator can be represented and shown to propagate.  Scores are an
arbitrary linearly ordered type `S` (Python floats only ever flow through
`np.argmax` here, which needs only the order).
-/

namespace KClust

/-- The Python argument passed as `max_clusters`: either an `int`
(`isinstance(max_clusters, int)` true; note a Python `bool` is an `int`, so it
falls in this constructor with value 0 or 1) or a value of any other type,
carried with the text Python would render for `type(max_clusters)` in the
error message. -/
inductive MaxClustersArg where
  | int (n : Int)
  | nonInt (typeName : String)
deriving DecidableEq

/-- Python exceptions surfaced by `kclust.py`: `ValueError` / `TypeError`
raised by the class itself (with their message), or an exception raised by a
collaborator (the fitting primitive or a scoring primitive), propagated
unchanged. -/
inductive PyError (E : Type) where
  | valueError (msg : String)
  | typeError (msg : String)
  | collaborator (e : E)
deriving DecidableEq

/-- A `KMeans(n_clusters=n, random_state=random_state)` object after
`fit_predict`: the excerpt only ever reads it back as `model_`, so the model
is represented by its constructor arguments. -/
structure KMeansModel where
  n_clusters : Nat
  random_state : Option Int
deriving DecidableEq

/-- The result attributes `fit` assigns on `self`.  In the source all four
are assigned together, in both branches of the final `if`, and nowhere else;
before the first successful `fit` none of them exists on the object, which
the embedding renders as the state field `results : Option (FitResults S)`
being `none`. -/
structure FitResults (S : Type) where
  ari_ : Option (List S)
  silhouette_ : List S
  n_clusters_ : Nat
  model_ : Option KMeansModel
deriving DecidableEq

/-- The state of a `KMeansCluster` object: the configuration stored by
`__init__` plus the optional result attributes. -/
structure KMeansCluster (S : Type) where
  max_clusters : Int
  random_state : Option Int
  results : Option (FitResults S)
deriving DecidableEq

/-- The collaborators of the excerpt, as oracle functions.
`fitPredict n rs X` stands for `KMeans(n_clusters=n,
random_state=rs).fit_predict(X)`; the two score functions stand for
`sklearn.metrics.silhouette_score` and `sklearn.metrics.adjusted_rand_score`.
Rows of `X` have an arbitrary type `P`, labels type `L`, scores type `S`,
collaborator exceptions type `E`. -/
structure Oracles (P L S E : Type) where
  fitPredict : Nat → Option Int → List P → Except E (List Nat)
  silhouette_score : List P → List Nat → Except E S
  adjusted_rand_score : List L → List Nat → Except E S

/-- Message of the `ValueError` raised by `__init__` for an integer
`max_clusters <= 1` (verbatim from the source). -/
def initValueMsg : String := "n_components must be >= 2 or None."

/-- Message of the `TypeError` raised by `__init__` for a non-integer
`max_clusters`; `typeName` is the text Python renders for
`type(max_clusters)`. -/
def initTypeMsg (typeName : String) : String :=
  "max_clusters must be an integer, not " ++ typeName ++ "."

/-- Message of the `ValueError` raised by `fit` when
`self.max_clusters > X.shape[0]`.  The source builds it from a string literal
with a backslash line continuation, so the 16 spaces of indentation of the
continuation line are part of the message. -/
def fitValueMsg (max_clusters : Int) (n_samples : Nat) : String :=
  "n_components must be >= n_samples, but got " ++
    "                n_components = " ++ toString max_clusters ++
    ", n_samples = " ++ toString n_samples

/-- Auxiliary for `strContains`: does `needle` occur as a contiguous run of
`hay`? -/
def listHas (hay needle : List Char) : Bool :=
  match hay with
  | [] => needle.isEmpty
  | _ :: t => needle.isPrefixOf hay || listHas t needle

/-- `needle in hay` on Python strings: substring containment, used to state
whether an error message includes an offending value. -/
def strContains (hay needle : String) : Bool :=
  listHas hay.toList needle.toList

/-- `KMeansCluster.__init__(max_clusters, random_state)`: `isinstance` check,
then the `<= 1` range check, then storing the validated configuration.  No
data is touched; no result attribute is created. -/
def KMeansCluster.init (S E : Type) (max_clusters : MaxClustersArg)
    (random_state : Option Int) : Except (PyError E) (KMeansCluster S) :=
  match max_clusters with
  | .int n =>
    if n ≤ 1 then
      Except.error (PyError.valueError initValueMsg)
    else
      Except.ok { max_clusters := n, random_state := random_state, results := none }
  | .nonInt t => Except.error (PyError.typeError (initTypeMsg t))

/-- `np.argmax` on a nonempty sequence: index of the first maximum (ties keep
the earliest index, since the running best is replaced only on a strictly
greater element).  `np.argmax` raises on an empty input; `fit` only applies
it to score lists of length `max_clusters - 1 ≥ 1`, so the `[]` case below is
unreachable from states produced by `init`. -/
def argmaxGo {S : Type} [LinearOrder S] : List S → S → Nat → Nat → Nat
  | [], _, bestIdx, _ => bestIdx
  | x :: xs, best, bestIdx, i =>
    if best < x then argmaxGo xs x i (i + 1) else argmaxGo xs best bestIdx (i + 1)

/-- See `argmaxGo`. -/
def npArgmax {S : Type} [LinearOrder S] : List S → Nat
  | [] => 0
  | x :: xs => argmaxGo xs x 0 1

/-- The candidate cluster counts of the sweep: Python
`range(2, max_clusters + 1)`. -/
def candidateCounts (max_clusters : Int) : List Nat :=
  List.range' 2 (max_clusters - 1).toNat

/-- The `if y is not None: aris.append(adjusted_rand_score(y, predictions))`
step of one loop iteration, as the list (of length 0 or 1) appended to the
accumulated `aris`. -/
def ariStep {P L S E : Type} (o : Oracles P L S E) (y : Option (List L))
    (predictions : List Nat) : Except E (List S) :=
  match y with
  | some ytrue => (o.adjusted_rand_score ytrue predictions).map (fun a => [a])
  | none => Except.ok []

/-- The `for n in range(2, max_clusters + 1)` loop of `fit`: for each
candidate count, fit and predict, append the model, append the silhouette
score, and if `y` was given append the ARI score.  Any exception of a
collaborator aborts the loop and propagates.  Returns the accumulated
`(models, silhouettes, aris)` in iteration order; `aris` is `[]` when `y` is
absent. -/
def sweep {P L S E : Type} (o : Oracles P L S E) (random_state : Option Int)
    (X : List P) (y : Option (List L)) :
    List Nat → Except E (List KMeansModel × List S × List S)
  | [] => Except.ok ([], [], [])
  | n :: ns =>
    match o.fitPredict n random_state X with
    | Except.error e => Except.error e
    | Except.ok predictions =>
      match o.silhouette_score X predictions with
      | Except.error e => Except.error e
      | Except.ok s =>
        match ariStep o y predictions with
        | Except.error e => Except.error e
        | Except.ok a =>
          match sweep o random_state X y ns with
          | Except.error e => Except.error e
          | Except.ok (ms, ss, ars) =>
            Except.ok ({ n_clusters := n, random_state := random_state } :: ms,
                       s :: ss, a ++ ars)

/-- `KMeansCluster.fit(X, y)`.  Precondition check
`self.max_clusters > X.shape[0]` first (raising before any candidate is
evaluated), then the sweep, then selection: with `y`, `n_clusters_ =
np.argmax(aris) + 1` and `model_ = models[np.argmax(aris)]`; without `y`,
the same with the silhouette scores and `ari_ = None`.  All four result
attributes are assigned only here, after the whole sweep has completed. -/
def KMeansCluster.fit {P L S E : Type} [LinearOrder S] (self : KMeansCluster S)
    (o : Oracles P L S E) (X : List P) (y : Option (List L)) :
    Except (PyError E) (KMeansCluster S) :=
  if self.max_clusters > (X.length : Int) then
    Except.error (PyError.valueError (fitValueMsg self.max_clusters X.length))
  else
    match sweep o self.random_state X y (candidateCounts self.max_clusters) with
    | Except.error e => Except.error (PyError.collaborator e)
    | Except.ok (models, silhouettes, aris) =>
      if y.isSome then
        Except.ok { self with results := some {
          ari_ := some aris,
          silhouette_ := silhouettes,
          n_clusters_ := npArgmax aris + 1,
          model_ := models[npArgmax aris]? } }
      else
        Except.ok { self with results := some {
          ari_ := none,
          silhouette_ := silhouettes,
          n_clusters_ := npArgmax silhouettes + 1,
          model_ := models[npArgmax silhouettes]? } }

/-- The state of the Python object after a call of `fit`: a raise leaves
every attribute exactly as it was (in the source, all writes to `self` come
after the points that can raise). -/
def fitObjectAfter {P L S E : Type} [LinearOrder S] (self : KMeansCluster S)
    (o : Oracles P L S E) (X : List P) (y : Option (List L)) : KMeansCluster S :=
  match self.fit o X y with
  | Except.ok st => st
  | Except.error _ => self

/-- The Python default for `max_clusters` in `__init__` is the integer 2. -/
def defaultMaxClusters : MaxClustersArg := MaxClustersArg.int 2

/-! ## Concrete collaborators and selectors for evaluations and witnesses -/

/-- Deterministic concrete collaborators (rows and labels are `Nat`, scores
are `Int`): the fitting primitive labels every point with the candidate
count, the silhouette score of a candidate is that count, and its ARI score
is `10 -` that count (so the ARI argmax is the first candidate and the
silhouette argmax is the last). -/
def oracleEval : Oracles Nat Nat Int String where
  fitPredict := fun n _ X => Except.ok (X.map (fun _ => n))
  silhouette_score := fun _ preds => Except.ok ((preds.headD 0 : Nat) : Int)
  adjusted_rand_score := fun _ preds => Except.ok (10 - ((preds.headD 0 : Nat) : Int))

/-- The selector produced by `KMeansCluster(max_clusters=3)`. -/
def selector3 : KMeansCluster Int :=
  { max_clusters := 3, random_state := none, results := none }

/-- The selector produced by `KMeansCluster()` (default `max_clusters=2`). -/
def selector2 : KMeansCluster Int :=
  { max_clusters := 2, random_state := none, results := none }

/-- Collaborators whose fitting primitive raises (e.g. on a malformed input
shape), to exercise error propagation through the sweep. -/
def oracleErr : Oracles Nat Nat Int String where
  fitPredict := fun _ _ _ => Except.error "fit_predict raised"
  silhouette_score := fun _ _ => Except.ok 0
  adjusted_rand_score := fun _ _ => Except.ok 0

/-- A selector carrying result attributes from an earlier `fit` call, to
exercise that a new `fit` ignores and fully replaces them. -/
def selectorStale : KMeansCluster Int :=
  { max_clusters := 3, random_state := none,
    results := some { ari_ := some [99], silhouette_ := [5], n_clusters_ := 7,
                      model_ := none } }

/-- The state `selector3.fit oracleEval [7,8,9] (some [0,1,1])` returns. -/
def stC4 : KMeansCluster Int :=
  { max_clusters := 3, random_state := none,
    results := some { ari_ := some [8, 7], silhouette_ := [2, 3], n_clusters_ := 1,
                      model_ := some { n_clusters := 2, random_state := none } } }

/-- The state `selectorStale.fit oracleEval [0,1,2] none` returns: the stale
result attributes are fully replaced (in particular `ari_` becomes `None`). -/
def stC9 : KMeansCluster Int :=
  { max_clusters := 3, random_state := none,
    results := some { ari_ := none, silhouette_ := [2, 3], n_clusters_ := 2,
                      model_ := some { n_clusters := 3, random_state := none } } }

/-! ## Helper lemmas -/

theorem ariStep_ok_length {P L S E : Type} (o : Oracles P L S E)
    (y : Option (List L)) (preds : List Nat) (a : List S)
    (h : ariStep o y preds = Except.ok a) :
    a.length = (match y with | some _ => 1 | none => 0) := by
  cases y with
  | none => simp [ariStep] at h; simp [h]
  | some ytrue =>
    simp only [ariStep] at h
    cases har : o.adjusted_rand_score ytrue preds with
    | error e => rw [har] at h; simp [Except.map] at h
    | ok v => rw [har] at h; simp [Except.map] at h; simp [← h]

theorem sweep_ok_lengths {P L S E : Type} (o : Oracles P L S E) (rs : Option Int)
    (X : List P) (y : Option (List L)) :
    ∀ (ns : List Nat) (ms : List KMeansModel) (ss ars : List S),
      sweep o rs X y ns = Except.ok (ms, ss, ars) →
      ms.length = ns.length ∧ ss.length = ns.length ∧
        ars.length = (match y with | some _ => ns.length | none => 0) := by
  intro ns
  induction ns with
  | nil =>
    intro ms ss ars h
    simp only [sweep, Except.ok.injEq, Prod.mk.injEq] at h
    obtain ⟨h1, h2, h3⟩ := h
    subst h1; subst h2; subst h3
    cases y <;> simp
  | cons n ns ih =>
    intro ms ss ars h
    cases hfp : o.fitPredict n rs X with
    | error e => simp [sweep, hfp] at h
    | ok preds =>
      cases hs : o.silhouette_score X preds with
      | error e => simp [sweep, hfp, hs] at h
      | ok s =>
        cases ha : ariStep o y preds with
        | error e => simp [sweep, hfp, hs, ha] at h
        | ok a =>
          cases hrec : sweep o rs X y ns with
          | error e => simp [sweep, hfp, hs, ha, hrec] at h
          | ok rest =>
            obtain ⟨ms', ss', ars'⟩ := rest
            simp only [sweep, hfp, hs, ha, hrec, Except.ok.injEq, Prod.mk.injEq] at h
            obtain ⟨h1, h2, h3⟩ := h
            subst h1; subst h2; subst h3
            obtain ⟨l1, l2, l3⟩ := ih ms' ss' ars' hrec
            have hal := ariStep_ok_length o y preds a ha
            refine ⟨by simp [l1], by simp [l2], ?_⟩
            cases y <;> simp_all
            omega

theorem length_candidateCounts (m : Int) (h2 : 2 ≤ m) :
    ((candidateCounts m).length : Int) = m - 1 := by
  simp only [candidateCounts, List.length_range']
  omega

theorem mem_candidateCounts (m : Int) (h2 : 2 ≤ m) (n : Nat) :
    n ∈ candidateCounts m ↔ 2 ≤ n ∧ (n : Int) ≤ m := by
  simp only [candidateCounts, List.mem_range'_1]
  omega

theorem pairwise_candidateCounts (m : Int) :
    List.Pairwise (· < ·) (candidateCounts m) :=
  List.pairwise_lt_range' 2 (m - 1).toNat 1 Nat.one_pos

theorem listHas_append (a s b : List Char) : listHas (a ++ s ++ b) s = true := by
  induction a with
  | nil =>
    simp only [List.nil_append]
    cases hsb : s ++ b with
    | nil =>
      have hs : s = [] := by cases s <;> simp_all
      subst hs
      simp [listHas]
    | cons c t =>
      simp only [listHas, Bool.or_eq_true]
      left
      have hp : s.isPrefixOf (s ++ b) = true := by simp
      rw [hsb] at hp
      exact hp
  | cons c a' ih =>
    simp only [List.cons_append, listHas, Bool.or_eq_true]
    right
    exact ih

/-- A string contains any middle part of an append decomposition. -/
theorem strContains_mid (a s b : String) : strContains (a ++ s ++ b) s = true := by
  simp only [strContains, String.toList]
  simp only [String.data_append]
  exact listHas_append a.data s.data b.data

/-- Decomposition of a successful `fit`: the precondition held, the sweep
succeeded, the configuration fields are untouched, and the result attributes
are exactly those of the selection step of the matching branch on `y`. -/
theorem fit_ok_results {P L S E : Type} [LinearOrder S] (self : KMeansCluster S)
    (o : Oracles P L S E) (X : List P) (y : Option (List L)) (st : KMeansCluster S)
    (h : self.fit o X y = Except.ok st) :
    self.max_clusters ≤ (X.length : Int) ∧
    ∃ ms ss ars,
      sweep o self.random_state X y (candidateCounts self.max_clusters) =
        Except.ok (ms, ss, ars) ∧
      st.max_clusters = self.max_clusters ∧
      st.random_state = self.random_state ∧
      st.results = some (match y with
        | some _ => { ari_ := some ars, silhouette_ := ss,
                      n_clusters_ := npArgmax ars + 1, model_ := ms[npArgmax ars]? }
        | none => { ari_ := none, silhouette_ := ss,
                    n_clusters_ := npArgmax ss + 1, model_ := ms[npArgmax ss]? }) := by
  by_cases hc : self.max_clusters > (X.length : Int)
  · simp [KMeansCluster.fit, hc] at h
  · refine ⟨by omega, ?_⟩
    cases hsw : sweep o self.random_state X y (candidateCounts self.max_clusters) with
    | error e => simp [KMeansCluster.fit, hc, hsw] at h
    | ok triple =>
      obtain ⟨ms, ss, ars⟩ := triple
      refine ⟨ms, ss, ars, rfl, ?_⟩
      cases y with
      | none =>
        simp [KMeansCluster.fit, hc, hsw] at h
        simp [← h]
      | some ys =>
        simp [KMeansCluster.fit, hc, hsw] at h
        simp [← h]

/-! ## Claim theorems -/

/-- C1 — the claim fails on the code: with `y` supplied, `fit` sets
`n_clusters_ = np.argmax(aris) + 1`, not `np.argmax(aris) + 2`.  At
`max_clusters = 3`, `X = [0,1,2]`, `y = [0,0,1]` with the concrete
collaborators, the retained `ari_` is `[8, 7]` whose first-maximum argmax is
0, so the claim demands `n_clusters_ = 2`, yet the code stores
`n_clusters_ = 1` (and `model_` is the model fitted with 2 clusters, so the
selected candidate is count 2, as the class docstring also requires). -/
theorem C1_code_eval :
    selector3.fit oracleEval [0, 1, 2] (some [0, 0, 1]) =
      Except.ok { selector3 with results := some {
        ari_ := some [8, 7],
        silhouette_ := [2, 3],
        n_clusters_ := 1,
        model_ := some { n_clusters := 2, random_state := none } } } ∧
    npArgmax ([8, 7] : List Int) + 2 = 2 ∧ (1 : Nat) ≠ 2 :=
  ⟨rfl, rfl, by decide⟩

/-- C2 — the claim fails on the code: `n_clusters_` is not always in
`[2, max_clusters]`.  A successful `fit` of the default selector
(`max_clusters = 2`, two samples, no `y`) stores `n_clusters_ = 1`, below
the claimed lower bound 2. -/
theorem C2_code_eval :
    selector2.fit oracleEval [0, 1] none =
      Except.ok { selector2 with results := some {
        ari_ := none,
        silhouette_ := [2],
        n_clusters_ := 1,
        model_ := some { n_clusters := 2, random_state := none } } } ∧
    ¬(2 ≤ (1 : Nat) ∧ ((1 : Nat) : Int) ≤ selector2.max_clusters) :=
  ⟨rfl, by decide⟩

/-- C3 — the claim fails on the code: `model_` is `models[argmax]`, fitted
with `argmax + 2` clusters, while `n_clusters_ = argmax + 1`.  At
`max_clusters = 3`, `X = [0,1,2]`, no `y`, the silhouette argmax is 1, so
`model_` is the model fitted with 3 clusters but `n_clusters_ = 2` — the
model stored in `model_` was not fitted with `n_clusters_` clusters, against
the claim and the class docstring. -/
theorem C3_code_eval :
    selector3.fit oracleEval [0, 1, 2] none =
      Except.ok { selector3 with results := some {
        ari_ := none,
        silhouette_ := [2, 3],
        n_clusters_ := 2,
        model_ := some { n_clusters := 3, random_state := none } } } ∧
    (3 : Nat) ≠ 2 :=
  ⟨rfl, by decide⟩

/-- C10 — construction without `max_clusters` uses the default 2, and `fit`
then sweeps exactly the single candidate count 2 (so `model_` is that
candidate's model, fitted with 2 clusters); but the code then stores
`n_clusters_ = 1`, which is not the single candidate count it claims to have
selected — the same `argmax + 1` slip as in the other selection claims. -/
theorem C10_code_eval :
    KMeansCluster.init Int String defaultMaxClusters none = Except.ok selector2 ∧
    candidateCounts selector2.max_clusters = [2] ∧
    selector2.fit oracleEval [5, 6] none =
      Except.ok { selector2 with results := some {
        ari_ := none,
        silhouette_ := [2],
        n_clusters_ := 1,
        model_ := some { n_clusters := 2, random_state := none } } } ∧
    (1 : Nat) ∉ candidateCounts selector2.max_clusters :=
  ⟨rfl, rfl, rfl, by decide⟩

/-- C4 — confirmed: for any successful `fit` with `max_clusters ≥ 2`, the
candidate counts are exactly the integers `2 .. max_clusters`, ascending, no
gaps or duplicates, the retained `silhouette_` has length
`max_clusters - 1`, and when `y` was given so does the retained list in
`ari_`, both built in candidate order by the same sweep. -/
theorem C4_candidates_and_lengths {P L S E : Type} [LinearOrder S]
    (o : Oracles P L S E) (self st : KMeansCluster S) (X : List P)
    (y : Option (List L)) (h2 : 2 ≤ self.max_clusters)
    (h : self.fit o X y = Except.ok st) :
    ∃ r, st.results = some r ∧
      ((r.silhouette_.length : Int) = self.max_clusters - 1) ∧
      (∀ ys, y = some ys →
        ∃ l, r.ari_ = some l ∧ (l.length : Int) = self.max_clusters - 1) ∧
      (∀ n, n ∈ candidateCounts self.max_clusters ↔
        2 ≤ n ∧ (n : Int) ≤ self.max_clusters) ∧
      List.Pairwise (· < ·) (candidateCounts self.max_clusters) := by
  obtain ⟨hpre, ms, ss, ars, hsw, hmax, hrs, hres⟩ := fit_ok_results self o X y st h
  obtain ⟨l1, l2, l3⟩ := sweep_ok_lengths o self.random_state X y _ ms ss ars hsw
  have hcc : ((candidateCounts self.max_clusters).length : Int) =
      self.max_clusters - 1 := length_candidateCounts _ h2
  cases y with
  | none =>
    refine ⟨_, hres, ?_, ?_, fun n => mem_candidateCounts _ h2 n,
      pairwise_candidateCounts _⟩
    · simpa [l2] using hcc
    · intro ys hy; cases hy
  | some ys =>
    refine ⟨_, hres, ?_, ?_, fun n => mem_candidateCounts _ h2 n,
      pairwise_candidateCounts _⟩
    · simpa [l2] using hcc
    · intro ys' hy
      exact ⟨ars, rfl, by simpa [l3] using hcc⟩

/-- Witness for C4 at a concrete successful fit. -/
theorem C4_witness :
    ∃ r, stC4.results = some r ∧
      ((r.silhouette_.length : Int) = selector3.max_clusters - 1) ∧
      (∀ ys, (some [0, 1, 1] : Option (List Nat)) = some ys →
        ∃ l, r.ari_ = some l ∧ (l.length : Int) = selector3.max_clusters - 1) ∧
      (∀ n, n ∈ candidateCounts selector3.max_clusters ↔
        2 ≤ n ∧ (n : Int) ≤ selector3.max_clusters) ∧
      List.Pairwise (· < ·) (candidateCounts selector3.max_clusters) :=
  C4_candidates_and_lengths oracleEval selector3 stC4 [7, 8, 9] (some [0, 1, 1])
    (by decide) rfl

/-- C5 — confirmed: construction fails exactly when `max_clusters` is not an
integer or is an integer `≤ 1`; for an integer `≥ 2` it succeeds, storing the
validated configuration with the result attributes absent (no data is
involved at construction time). -/
theorem C5_init_validation (rs : Option Int) (arg : MaxClustersArg) :
    ((∃ e, KMeansCluster.init Int String arg rs = Except.error e) ↔
      (∀ n, arg ≠ MaxClustersArg.int n) ∨
        ∃ n, arg = MaxClustersArg.int n ∧ n ≤ 1) ∧
    (∀ n, arg = MaxClustersArg.int n → 2 ≤ n →
      KMeansCluster.init Int String arg rs =
        Except.ok { max_clusters := n, random_state := rs, results := none }) := by
  constructor
  · constructor
    · rintro ⟨e, he⟩
      cases arg with
      | int n =>
        by_cases hn : n ≤ 1
        · exact Or.inr ⟨n, rfl, hn⟩
        · simp [KMeansCluster.init, hn] at he
      | nonInt t => exact Or.inl (fun n h => by cases h)
    · rintro (h | ⟨n, rfl, hn⟩)
      · cases arg with
        | int n => exact absurd rfl (h n)
        | nonInt t => exact ⟨_, rfl⟩
      · exact ⟨PyError.valueError initValueMsg, by simp [KMeansCluster.init, hn]⟩
  · rintro n rfl hn
    simp [KMeansCluster.init, show ¬ n ≤ 1 by omega]

/-- Witness for C5: `max_clusters = 3` succeeds, `max_clusters = 1` and a
non-integer `max_clusters` (such as the string `"3"`) raise. -/
theorem C5_witness :
    (KMeansCluster.init Int String (MaxClustersArg.int 3) none =
      Except.ok { max_clusters := 3, random_state := none, results := none }) ∧
    (∃ e, KMeansCluster.init Int String (MaxClustersArg.int 1) none =
      Except.error e) ∧
    (∃ e, KMeansCluster.init Int String (MaxClustersArg.nonInt "str") none =
      Except.error e) :=
  ⟨(C5_init_validation none (MaxClustersArg.int 3)).2 3 rfl (by decide),
   ((C5_init_validation none (MaxClustersArg.int 1)).1).mpr
     (Or.inr ⟨1, rfl, by decide⟩),
   ((C5_init_validation none (MaxClustersArg.nonInt "str")).1).mpr
     (Or.inl (fun n h => by cases h))⟩

/-- C6 — confirmed: when `X` has fewer rows than `max_clusters`, `fit` raises
the precondition `ValueError` before any candidate is evaluated (the outcome
does not depend on the collaborators at all) and the object keeps exactly the
attributes it had; when `max_clusters ≤ n_samples` the precondition check
passes, so the call either succeeds or fails only with a propagated
collaborator error. -/
theorem C6_fit_precondition {P L S E : Type} [LinearOrder S]
    (self : KMeansCluster S) (o o2 : Oracles P L S E) (X : List P)
    (y : Option (List L)) :
    ((X.length : Int) < self.max_clusters →
      self.fit o X y =
        Except.error (PyError.valueError (fitValueMsg self.max_clusters X.length)) ∧
      fitObjectAfter self o X y = self ∧
      self.fit o X y = self.fit o2 X y) ∧
    (self.max_clusters ≤ (X.length : Int) →
      (∃ st, self.fit o X y = Except.ok st) ∨
        ∃ e, self.fit o X y = Except.error (PyError.collaborator e)) := by
  constructor
  · intro hlt
    have hc : self.max_clusters > (X.length : Int) := hlt
    refine ⟨by simp [KMeansCluster.fit, hc], ?_, ?_⟩
    · simp [fitObjectAfter, KMeansCluster.fit, hc]
    · simp [KMeansCluster.fit, hc]
  · intro hle
    have hc : ¬ self.max_clusters > (X.length : Int) := by omega
    cases hsw : sweep o self.random_state X y (candidateCounts self.max_clusters) with
    | error e => exact Or.inr ⟨e, by simp [KMeansCluster.fit, hc, hsw]⟩
    | ok triple =>
      obtain ⟨ms, ss, ars⟩ := triple
      refine Or.inl ?_
      cases y with
      | none =>
        refine ⟨{ self with results := some ⟨none, ss, npArgmax ss + 1, ms[npArgmax ss]?⟩ }, ?_⟩
        simp [KMeansCluster.fit, hc, hsw]
      | some ys =>
        refine ⟨{ self with results := some ⟨some ars, ss, npArgmax ars + 1, ms[npArgmax ars]?⟩ }, ?_⟩
        simp [KMeansCluster.fit, hc, hsw]

/-- Witness for C6: a two-row `X` against `max_clusters = 3` raises and
leaves the object untouched; a three-row `X` against `max_clusters = 2`
passes the check. -/
theorem C6_witness :
    (selector3.fit oracleEval [0, 1] none =
      Except.error
        (PyError.valueError (fitValueMsg selector3.max_clusters 2)) ∧
      fitObjectAfter selector3 oracleEval [0, 1] none = selector3 ∧
      selector3.fit oracleEval [0, 1] none = selector3.fit oracleErr [0, 1] none) ∧
    ((∃ st, selector2.fit oracleEval [3, 4, 5] none = Except.ok st) ∨
      ∃ e, selector2.fit oracleEval [3, 4, 5] none =
        Except.error (PyError.collaborator e)) :=
  ⟨(C6_fit_precondition selector3 oracleEval oracleErr [0, 1] none).1 (by decide),
   (C6_fit_precondition selector2 oracleEval oracleErr [3, 4, 5] none).2 (by decide)⟩

/-- C7 — the claim fails on the code: the `ValueError` of `__init__` for an
integer `max_clusters <= 1` carries the fixed message
`"n_components must be >= 2 or None."`, which does not include the offending
value (here 1). -/
theorem C7_counterexample :
    KMeansCluster.init Int String (MaxClustersArg.int 1) none =
      Except.error (PyError.valueError initValueMsg) ∧
    strContains initValueMsg (toString (1 : Int)) = false :=
  ⟨rfl, by decide⟩

/-- C7 amended: the fit-time precondition message includes both offending
values (`max_clusters` and `n_samples`), and the construction type-error
message includes the rendering of the offending type; but the construction
range-error message is a fixed string independent of the offending value (in
particular it does not contain the offending value 1). -/
theorem C7_amended_messages :
    (∀ (m : Int) (n : Nat),
      strContains (fitValueMsg m n) (toString m) = true ∧
      strContains (fitValueMsg m n) (toString n) = true) ∧
    (∀ t, strContains (initTypeMsg t) t = true) ∧
    (∀ (k : Int) (rs : Option Int), k ≤ 1 →
      KMeansCluster.init Int String (MaxClustersArg.int k) rs =
        Except.error (PyError.valueError initValueMsg)) ∧
    strContains initValueMsg "1" = false := by
  refine ⟨fun m n => ⟨?_, ?_⟩, fun t => ?_, fun k rs hk => ?_, by decide⟩
  · have h : fitValueMsg m n =
        ("n_components must be >= n_samples, but got " ++
          "                n_components = ") ++ toString m ++
          (", n_samples = " ++ toString n) := by
      simp [fitValueMsg, String.append_assoc]
    rw [h]; exact strContains_mid _ _ _
  · have h : fitValueMsg m n =
        ("n_components must be >= n_samples, but got " ++
          "                n_components = " ++ toString m ++ ", n_samples = ")
          ++ toString n ++ "" := by
      simp [fitValueMsg, String.append_assoc]
    rw [h]; exact strContains_mid _ _ _
  · have h : initTypeMsg t =
        "max_clusters must be an integer, not " ++ t ++ "." := rfl
    rw [h]; exact strContains_mid _ _ _
  · simp [KMeansCluster.init, hk]

/-- Witness for the amended C7 at concrete offending values. -/
theorem C7_amended_witness :
    strContains (fitValueMsg 3 2) (toString (3 : Int)) = true ∧
    strContains (initTypeMsg "str") "str" = true ∧
    KMeansCluster.init Int String (MaxClustersArg.int 0) none =
      Except.error (PyError.valueError initValueMsg) :=
  ⟨(C7_amended_messages.1 3 2).1,
   C7_amended_messages.2.1 "str",
   C7_amended_messages.2.2.1 0 none (by decide)⟩

/-- C8 — confirmed: when a collaborator raises during the sweep, `fit`
propagates exactly that error (wrapped in no way: the `collaborator`
constructor is the embedding of an unchanged foreign exception), and the
object keeps exactly the attributes it had — no partial sweep results are
exposed. -/
theorem C8_error_propagation {P L S E : Type} [LinearOrder S]
    (self : KMeansCluster S) (o : Oracles P L S E) (X : List P)
    (y : Option (List L)) (e : E)
    (hpre : self.max_clusters ≤ (X.length : Int))
    (hsw : sweep o self.random_state X y (candidateCounts self.max_clusters) =
      Except.error e) :
    self.fit o X y = Except.error (PyError.collaborator e) ∧
    fitObjectAfter self o X y = self := by
  have hc : ¬ self.max_clusters > (X.length : Int) := by omega
  constructor
  · simp [KMeansCluster.fit, hc, hsw]
  · simp [fitObjectAfter, KMeansCluster.fit, hc, hsw]

/-- Witness for C8: a fitting primitive that raises makes `fit` fail with
exactly that error and leaves the selector untouched. -/
theorem C8_witness :
    selector2.fit oracleErr [0, 1] none =
      Except.error (PyError.collaborator "fit_predict raised") ∧
    fitObjectAfter selector2 oracleErr [0, 1] none = selector2 :=
  C8_error_propagation selector2 oracleErr [0, 1] none "fit_predict raised"
    (by decide) rfl

/-- C9 — confirmed: the outcome of `fit` (hence `n_clusters_`,
`silhouette_`, `ari_`) depends only on the configuration
(`max_clusters`, `random_state`), the data, `y` and the deterministic
collaborators — two selectors with the same configuration but different (or
stale) result attributes produce identical results, so each `fit` fully
replaces prior result state; and a `fit` without `y` sets `ari_` to `None`. -/
theorem C9_determinism_and_replacement {P L S E : Type} [LinearOrder S]
    (o : Oracles P L S E) (s1 s2 : KMeansCluster S) (X : List P)
    (y : Option (List L))
    (hmax : s1.max_clusters = s2.max_clusters)
    (hrs : s1.random_state = s2.random_state) :
    (s1.fit o X y).map (fun st => st.results) =
      (s2.fit o X y).map (fun st => st.results) ∧
    (∀ st, s1.fit (L := L) o X none = Except.ok st →
      ∃ r, st.results = some r ∧ r.ari_ = none) := by
  constructor
  · by_cases hc : s2.max_clusters > (X.length : Int)
    · simp [KMeansCluster.fit, hmax, hrs, hc]
    · cases hsw : sweep o s2.random_state X y (candidateCounts s2.max_clusters) with
      | error e => simp [KMeansCluster.fit, hmax, hrs, hc, hsw]
      | ok triple =>
        obtain ⟨ms, ss, ars⟩ := triple
        cases y with
        | none => simp [KMeansCluster.fit, hmax, hrs, hc, hsw]
        | some ys => simp [KMeansCluster.fit, hmax, hrs, hc, hsw]
  · intro st hfit
    obtain ⟨hpre, ms, ss, ars, hsw, hmax', hrs', hres⟩ :=
      fit_ok_results s1 o X none st hfit
    exact ⟨_, hres, rfl⟩

/-- Witness for C9: a selector with stale results from an earlier fit and a
fresh selector with the same configuration produce identical results, and a
fit without `y` stores `ari_ = None` over the stale value. -/
theorem C9_witness :
    ((selectorStale.fit oracleEval [0, 1, 2] (some [0, 1, 2])).map
        (fun st => st.results) =
      (selector3.fit oracleEval [0, 1, 2] (some [0, 1, 2])).map
        (fun st => st.results)) ∧
    (∃ r, stC9.results = some r ∧ r.ari_ = none) :=
  ⟨(C9_determinism_and_replacement oracleEval selectorStale selector3 [0, 1, 2]
      (some [0, 1, 2]) rfl rfl).1,
   (C9_determinism_and_replacement oracleEval selectorStale selector3 [0, 1, 2]
      (some [0, 1, 2]) rfl rfl).2 stC9 rfl⟩

end KClust
